import Mathlib

/-!
Verification development for the LEDMatrix live-flight subsystem.

The definitions below are shallow embeddings of the Python sources:
  - src/flight_manager.py   (FlightLiveManager: has_live_content,
    _clean_cooldown_flights, _fetch_flights_internal, _infer_aircraft_type)
  - src/aircraft_lookup.py  (_fallback_lookup, _shorten_manufacturer)
  - src/faa_database.py     (FAADatabase: _classify_type, _is_cargo_carrier,
    the final-type computation in _parse_master, and lookup)

Modelling conventions:
  - Python float timestamps and coordinates are modelled as integers: the embedded logic uses only subtraction, multiplication and order comparisons, never division, so it is uniform in the choice of ordered ring and the integers keep every definition kernel-computable.
  - Python dicts used as keyed maps are modelled as functions into Option.
  - Python None / falsy handling is made explicit at each use site.
-/

namespace LEDMatrix

/-! ## Python string primitives

Character-list implementations of the Python string operations the sources
use.  (The corresponding standard-library String functions are defined by
recursion on byte positions, which the kernel cannot evaluate; these
structural versions keep every definition computable by `decide`.) -/

def listStartsWith : List Char → List Char → Bool
  | _, [] => true
  | [], _ :: _ => false
  | c :: cs, d :: ds => c == d && listStartsWith cs ds

def listContainsSub : List Char → List Char → Bool
  | [], needle => needle.isEmpty
  | c :: t, needle => listStartsWith (c :: t) needle || listContainsSub t needle

/-- Python `s.startswith(p)`. -/
def pyStartsWith (s p : String) : Bool := listStartsWith s.data p.data

/-- Substring containment, Python `needle in hay`. -/
def strContainsSub (hay needle : String) : Bool := listContainsSub hay.data needle.data

/-- Python `s.upper()`. -/
def pyUpper (s : String) : String := String.mk (s.data.map Char.toUpper)

/-- Python `s.strip()`: drop whitespace from both ends. -/
def pyStrip (s : String) : String :=
  String.mk (((s.data.dropWhile Char.isWhitespace).reverse.dropWhile
    Char.isWhitespace).reverse)

/-! ## Interruption session manager (flight_manager.py, has_live_content)

State of the session machine.  In the Python source the two attributes
`_interruption_active` and `_interruption_start_time` are kept in lockstep:
they are initialised to (False, None), every activation assigns
(True, current_time) and every deactivation assigns (False, None), so the
pair is modelled by a single `Option` field: `none` is the inactive state
and `some t` is the active state whose `_interruption_start_time` is `t`.
The dict `_cooldown_flights` (icao24 hex code to last-displayed timestamp)
is modelled as a function into `Option`. -/

structure SessionCfg where
  /-- `_max_interruption_time`, default 30 seconds. -/
  maxInterruptionTime : ℤ
  /-- `_cooldown_duration`, default 120 seconds. -/
  cooldownDuration : ℤ

structure SessionState where
  session : Option ℤ
  cooldown : String → Option ℤ

/-- The state at manager construction: not interrupting, empty cooldown dict. -/
def initialSessionState : SessionState :=
  { session := none, cooldown := fun _ => none }

/-- Embeds `_clean_cooldown_flights`: delete every cooldown entry whose
timestamp satisfies `current_time - timestamp > self._cooldown_duration`. -/
def cleanCooldownFlights (cfg : SessionCfg) (cd : String → Option ℤ) (now : ℤ) :
    String → Option ℤ :=
  fun x =>
    match cd x with
    | some ts => if now - ts > cfg.cooldownDuration then none else some ts
    | none => none

/-- Dict assignment `self._cooldown_flights[icao] = t`. -/
def cdSet (cd : String → Option ℤ) (i : String) (t : ℤ) : String → Option ℤ :=
  fun x => if x = i then some t else cd x

/-- The loops `for flight in current_flights: self._cooldown_flights[flight[..]] = t`
(run both at session start and at session expiry). -/
def cdSetAll (cd : String → Option ℤ) (flights : List String) (t : ℤ) :
    String → Option ℤ :=
  flights.foldl (fun c i => cdSet c i t) cd

/-- The mid-session loop of has_live_content: every present aircraft whose hex
code is not in the cooldown dict is added with timestamp `now`, and a flag
records whether any such new aircraft was seen. -/
def markNew (cd : String → Option ℤ) (now : ℤ) (flights : List String) :
    (String → Option ℤ) × Bool :=
  flights.foldl
    (fun p i => if (p.1 i).isSome then p else (cdSet p.1 i now, true))
    (cd, false)

/-- Embeds `FlightLiveManager.has_live_content` (flight_manager.py 824-904).
Arguments: the configuration, the current state, the icao24 hex codes of the
aircraft in `self.live_flights`, and `current_time`.  Returns the boolean
result together with the post state.

  - empty flight list: reset to inactive, return False (cooldowns untouched);
  - otherwise expired cooldown entries are removed first;
  - inactive: if some present aircraft is not in cooldown, activate with
    `started_at = now`, put every present aircraft into cooldown at `now`,
    return True; else stay inactive and return False;
  - active: if `now - started_at >= max` then deactivate, refresh the
    cooldown of every present aircraft to `now`, return False; else add all
    new arrivals to cooldown, reset `started_at = now` if there was one,
    and return True. -/
def hasLiveContent (cfg : SessionCfg) (s : SessionState) (flights : List String)
    (now : ℤ) : Bool × SessionState :=
  if flights.isEmpty then
    (false, { session := none, cooldown := s.cooldown })
  else
    let cd := cleanCooldownFlights cfg s.cooldown now
    match s.session with
    | none =>
      if flights.any (fun i => (cd i).isNone) then
        (true, { session := some now, cooldown := cdSetAll cd flights now })
      else
        (false, { session := none, cooldown := cd })
    | some startedAt =>
      if now - startedAt ≥ cfg.maxInterruptionTime then
        (false, { session := none, cooldown := cdSetAll cd flights now })
      else
        let p := markNew cd now flights
        if p.2 then
          (true, { session := some now, cooldown := p.1 })
        else
          (true, { session := some startedAt, cooldown := p.1 })

/-- A sequence of has_live_content evaluations: each element of the list is
the set of present aircraft together with the evaluation time.  Returns the
list of boolean results and the final state. -/
def runEvals (cfg : SessionCfg) (s : SessionState) :
    List (List String × ℤ) → List Bool × SessionState
  | [] => ([], s)
  | (fl, t) :: rest =>
    let r := hasLiveContent cfg s fl t
    let rr := runEvals cfg r.2 rest
    (r.1 :: rr.1, rr.2)

/-! ## Position poller snapshot processing (flight_manager.py,
_fetch_flights_internal, lines 657-728)

Only the pure transformation from a successfully parsed API response to the
published `live_flights` list is embedded: per-vector validity filtering, the
cap at `max_flights` (applied with a `break` inside the collection loop) and
the closest-first sort that follows it.  The identification enrichment
(`_lookup_aircraft_info`, `_infer_aircraft_type`) only adds display fields
and is modelled separately.  `math.cos(math.radians(home_lat))` is
irrational, so the per-degree longitude scale `111 * cos(radians(home_lat))`
is abstracted as the parameter `lonScale`, and distances are compared by
their squares (sqrt is monotone, so the sort order is unchanged). -/

structure FetchCfg where
  homeLat : ℤ
  homeLon : ℤ
  /-- Stands for `111 * cos(radians(home_lat))` from _calculate_distance. -/
  lonScale : ℤ
  /-- `max_flights`, default 10. -/
  maxFlights : Nat
  /-- `min_altitude_m`, default 500. -/
  minAltitudeM : ℤ

/-- One OpenSky state vector, restricted to the columns the filtering reads
(index 0, 1, 5, 6, 7, 8). -/
structure StateVec where
  icao24 : String
  callsign : Option String
  lon : Option ℤ
  lat : Option ℤ
  altitudeM : Option ℤ
  onGround : Bool
deriving DecidableEq

/-- One published flight entry, restricted to the fields the claim is about:
identity, cleaned callsign and the (squared) distance used as sort key. -/
structure FlightRec where
  icao24 : String
  callsign : String
  distSq : ℤ
deriving DecidableEq

/-- Square of `_calculate_distance`:
`dx = (lon - home_lon) * 111 * cos(radians(home_lat))`,
`dy = (lat - home_lat) * 111`, distance `= sqrt(dx^2 + dy^2)`. -/
def flightDistSq (cfg : FetchCfg) (lat lon : ℤ) : ℤ :=
  ((lon - cfg.homeLon) * cfg.lonScale) ^ 2 + ((lat - cfg.homeLat) * 111) ^ 2

/-- Negation of the two `continue` filters:
`if not callsign or lon is None or lat is None: continue` (the callsign is
stripped first when truthy, so a whitespace-only callsign is also skipped) and
`if on_ground or (altitude_m and altitude_m < self.min_altitude_m): continue`
(a missing or zero `altitude_m` is falsy and does NOT trigger the skip). -/
def validState (cfg : FetchCfg) (sv : StateVec) : Bool :=
  ((sv.callsign.map pyStrip).getD "" != "") &&
  sv.lon.isSome && sv.lat.isSome &&
  !sv.onGround &&
  !(match sv.altitudeM with
    | some a => decide (a ≠ 0) && decide (a < cfg.minAltitudeM)
    | none => false)

/-- The published dict built for a valid state vector. -/
def mkRec (cfg : FetchCfg) (sv : StateVec) : FlightRec :=
  { icao24 := sv.icao24,
    callsign := pyStrip (sv.callsign.getD ""),
    distSq := flightDistSq cfg (sv.lat.getD 0) (sv.lon.getD 0) }

/-- The collection loop: append each valid vector and
`if len(new_live_flights) >= self.max_flights: break`. -/
def collectFlights (cfg : FetchCfg) :
    List StateVec → List FlightRec → List FlightRec
  | [], acc => acc
  | sv :: rest, acc =>
    if validState cfg sv then
      let acc2 := acc ++ [mkRec cfg sv]
      if cfg.maxFlights ≤ acc2.length then acc2 else collectFlights cfg rest acc2
    else
      collectFlights cfg rest acc

/-- Sort key order, `new_live_flights.sort(key=lambda f: f['distance_km'])`. -/
def recLe (a b : FlightRec) : Prop := a.distSq ≤ b.distSq

instance : DecidableRel recLe :=
  fun a b => inferInstanceAs (Decidable (a.distSq ≤ b.distSq))

instance : IsTotal FlightRec recLe := ⟨fun a b => le_total a.distSq b.distSq⟩

instance : IsTrans FlightRec recLe := ⟨fun _ _ _ h1 h2 => le_trans h1 h2⟩

/-- The full successful-cycle transformation: collect (with the cap applied
inside the loop) and then sort closest first.  Python list.sort is a stable
sort by the key; a stable sort by a total transitive key order has a unique
result, here given by insertion sort. -/
def processStates (cfg : FetchCfg) (states : List StateVec) : List FlightRec :=
  List.insertionSort recLe (collectFlights cfg states [])

/-! ## hexdb.io fallback lookup (aircraft_lookup.py, _fallback_lookup) -/

/-- Python str.title restricted to ASCII: a letter is uppercased when the
previous character is not a letter, lowercased otherwise. -/
def pyTitle (s : String) : String :=
  String.mk
    ((s.data.foldl
      (fun (acc : List Char × Bool) c =>
        if c.isAlpha then
          (acc.1 ++ [if acc.2 then c.toLower else c.toUpper], true)
        else
          (acc.1 ++ [c], false))
      ([], false)).1)

/-- Embeds _shorten_manufacturer (aircraft_lookup.py, lines 142-172). -/
def shortenManufacturer (manufacturer : String) : String :=
  if manufacturer = "" then ""
  else
    let upper := pyUpper manufacturer
    if strContainsSub upper "BOEING" then "Boeing"
    else if strContainsSub upper "AIRBUS" then "Airbus"
    else if strContainsSub upper "CESSNA" then "Cessna"
    else if strContainsSub upper "PIPER" then "Piper"
    else if strContainsSub upper "EMBRAER" then "Embraer"
    else if strContainsSub upper "BOMBARDIER" then "Bombardier"
    else if strContainsSub upper "GULFSTREAM" then "Gulfstream"
    else if strContainsSub upper "BEECHCRAFT" || strContainsSub upper "BEECH" then
      "Beechcraft"
    else if strContainsSub upper "CIRRUS" then "Cirrus"
    else if strContainsSub upper "MOONEY" then "Mooney"
    else if strContainsSub upper "DIAMOND" then "Diamond"
    else String.mk ((pyTitle manufacturer).data.take 12)

/-- The JSON body of a 200 response from hexdb.io, restricted to the keys the
code reads.  `statusIs404OrError` stands for the Python test
`data.get('status') == '404' or data.get('error')`. -/
structure HexdbData where
  statusIs404OrError : Bool
  manufacturer : String
  model : String
  typecode : String
  registration : Option String
  registeredOwners : Option String
deriving DecidableEq

/-- Outcome of the `requests.get` call: a 200 response with a body, a 404, any
other status code, or a raised exception (timeout, connection error, bad
JSON). -/
inductive HexdbResp where
  | ok (d : HexdbData)
  | notFound
  | otherStatus (code : Nat)
  | netError
deriving DecidableEq

/-- The result dict built by a successful fallback lookup.  `display_type` is
only present when at least one of manufacturer / model / typecode is
nonempty; `source` is always the literal written by the code. -/
structure FbRec where
  displayType : Option String
  typecode : String
  registration : Option String
  operatorName : Option String
  source : String
deriving DecidableEq

/-- Builds the result dict from a positive 200 body (lines 219-235). -/
def buildFbRec (d : HexdbData) : FbRec :=
  { displayType :=
      if d.manufacturer ≠ "" ∧ d.model ≠ "" then
        some (shortenManufacturer d.manufacturer ++ " " ++ d.model)
      else if d.model ≠ "" then some d.model
      else if d.typecode ≠ "" then some d.typecode
      else none,
    typecode := d.typecode,
    registration := d.registration,
    operatorName := d.registeredOwners,
    source := "hexdb.io" }

/-- `_fallback_rate_limit = 1.0` second between API calls. -/
def fallbackRateLimit : ℤ := 1

/-- The module state: the persistent `_fallback_cache` dict (outer `none`
means the hex code is absent; `some none` is a cached Python `None`, the
negative marker; `some (some r)` is a cached positive dict) and
`_last_fallback_request`. -/
structure FbState where
  cache : String → Option (Option FbRec)
  lastRequest : ℤ

/-- Dict assignment `_fallback_cache[icao24] = v`. -/
def cacheWrite (cache : String → Option (Option FbRec)) (icao24 : String)
    (v : Option FbRec) : String → Option (Option FbRec) :=
  fun x => if x = icao24 then some v else cache x

/-- Embeds `_fallback_lookup` (aircraft_lookup.py, lines 175-253).  Returns
the result (`none` is the empty dict), the post state, and whether a network
request was issued this call.  Branches, in source order:
  - cache hit: return the cached dict (or the empty dict for a cached
    negative marker), no request;
  - within the rate limit: return the empty dict, no request, and
    `_last_fallback_request` is NOT updated;
  - otherwise `_last_fallback_request = now` and the request is made:
    * 200 with a 404/error body: cache the negative marker, return empty;
    * 200 positive: build, cache and return the result dict;
    * 404: cache the negative marker, return empty;
    * any other status, or an exception: return empty, cache untouched. -/
def fallbackLookup (s : FbState) (icao24 : String) (now : ℤ) (resp : HexdbResp) :
    Option FbRec × FbState × Bool :=
  match s.cache icao24 with
  | some cached => (cached, s, false)
  | none =>
    if now - s.lastRequest < fallbackRateLimit then
      (none, s, false)
    else
      match resp with
      | .ok d =>
        if d.statusIs404OrError then
          (none, { cache := cacheWrite s.cache icao24 none, lastRequest := now }, true)
        else
          let r := buildFbRec d
          (some r, { cache := cacheWrite s.cache icao24 (some r), lastRequest := now }, true)
      | .notFound =>
        (none, { cache := cacheWrite s.cache icao24 none, lastRequest := now }, true)
      | .otherStatus _ =>
        (none, { cache := s.cache, lastRequest := now }, true)
      | .netError =>
        (none, { cache := s.cache, lastRequest := now }, true)

/-- A sequence of fallback lookups: hex code, call time and the network
response the service would give.  Returns per-call (result, request-made)
pairs and the final state. -/
def runFallback (s : FbState) :
    List (String × ℤ × HexdbResp) → List (Option FbRec × Bool) × FbState
  | [] => ([], s)
  | (i, t, r) :: rest =>
    let one := fallbackLookup s i t r
    let rr := runFallback one.2.1 rest
    ((one.1, one.2.2) :: rr.1, rr.2)

/-! ## FAA registration database (faa_database.py) -/

/-- `ENGINE_TURBINE_CODES = {'2', '3', '4', '5', '6'}`. -/
def ENGINE_TURBINE_CODES : List String := ["2", "3", "4", "5", "6"]

/-- `TYPE_MAPPING` from the class body. -/
def TYPE_MAPPING : List (String × String) :=
  [("1", "GLIDER"), ("2", "BALLOON"), ("3", "BALLOON"), ("4", "GA"),
   ("5", "JET"), ("6", "HELO"), ("7", "GA"), ("8", "CHUTE"), ("9", "HELO"),
   ("H", "GA"), ("O", "UNK")]

/-- Embeds `_classify_type` (lines 305-345).  The Python signature also takes
`ref_info`, which the body never reads, so it is omitted here. -/
def classifyType (typeAircraft typeEngine : String) : String :=
  if typeAircraft = "6" then "HELO"
  else if typeAircraft = "9" then "HELO"
  else if typeAircraft = "4" then "GA"
  else if typeAircraft = "5" then
    (if ENGINE_TURBINE_CODES.contains typeEngine then "JET" else "TWIN")
  else if typeAircraft = "1" then "GLIDER"
  else if typeAircraft = "2" ∨ typeAircraft = "3" then "BALLOON"
  else if typeAircraft = "8" then "CHUTE"
  else ((TYPE_MAPPING.find? (fun p => p.1 == typeAircraft)).map (·.2)).getD "UNK"

/-- The generic-cargo keyword list from `_is_cargo_carrier`. -/
def otherCargoKeywords : List String :=
  ["KALITTA", "CARGOLUX", "POLAR AIR", "SOUTHERN AIR", "WESTERN GLOBAL",
   "WORLD AIRWAYS", "NIPPON CARGO", "CATHAY CARGO", "AIR TRANSPORT INT",
   "AMERIJET", "MARTINAIRE", "EMPIRE AIRLINES", "MOUNTAIN AIR CARGO"]

/-- Embeds `_is_cargo_carrier` (lines 347-401); `registrant` is the already
uppercased registrant name as extracted in `_parse_master`. -/
def isCargoCarrier (registrant : String) : String :=
  if registrant = "" then ""
  else if strContainsSub registrant "UNITED PARCEL" || strContainsSub registrant "UPS" then
    "UPS"
  else if strContainsSub registrant "FEDERAL EXPRESS" || strContainsSub registrant "FEDEX" then
    "FDX"
  else if strContainsSub registrant "AMAZON" || strContainsSub registrant "PRIME AIR" then
    "AMAZON"
  else if strContainsSub registrant "DHL" then "DHL"
  else if strContainsSub registrant "ATLAS AIR" then "AMAZON"
  else if strContainsSub registrant "ABX AIR" then "AMAZON"
  else if otherCargoKeywords.any (fun k => strContainsSub registrant k) then "CARGO"
  else ""

/-- The final type stored by `_parse_master` (lines 260-266): classify from
the FAA codes, then
`if cargo_type and aircraft_type in ('JET', 'TWIN'): aircraft_type = cargo_type`. -/
def masterFinalType (typeAircraft typeEngine registrant : String) : String :=
  let t := classifyType typeAircraft typeEngine
  let cargo := isCargoCarrier registrant
  if cargo ≠ "" ∧ (t = "JET" ∨ t = "TWIN") then cargo else t

/-! ### FAADatabase.lookup (lines 403-432), with an explicit object heap

`lookup` returns `self.by_icao24[key].copy()` / `self.by_nnumber[key].copy()`.
To state the aliasing claim, Python object identity is made explicit: info
dicts live in a heap (a list of dicts addressed by position), the two lookup
tables map keys to heap addresses, and `.copy()` allocates a fresh cell at
the end of the heap holding the same contents.  Dict values are modelled as
strings (the two boolean fields of an info dict play no role in the claim). -/

abbrev PyDict := List (String × String)

abbrev Heap := List PyDict

structure FAADb where
  loaded : Bool
  byIcao24 : List (String × Nat)
  byNnumber : List (String × Nat)

/-- Key lookup in an association-list table. -/
def alookup (l : List (String × Nat)) (k : String) : Option Nat :=
  (l.find? (fun p => p.1 == k)).map (·.2)

/-- Python `s.lstrip('0')`. -/
def lstripZeros (s : String) : String :=
  String.mk (s.data.dropWhile (· == '0'))

/-- The ICAO24 branch of `lookup`: keyed by `icao24.upper().lstrip('0')`,
skipped entirely for a falsy (missing or empty) argument. -/
def faaFindIcao (db : FAADb) : Option String → Option Nat
  | some ic =>
    if ic = "" then none
    else alookup db.byIcao24 (lstripZeros (pyUpper ic))
  | none => none

/-- The N-number branch of `lookup`: keyed by `callsign.upper().strip()[1:]`
when the cleaned callsign starts with N, skipped for a falsy argument. -/
def faaFindCallsign (db : FAADb) : Option String → Option Nat
  | some cs =>
    if cs = "" then none
    else
      let cu := pyStrip (pyUpper cs)
      if pyStartsWith cu "N" then
        alookup db.byNnumber (String.mk (cu.data.drop 1))
      else none
  | none => none

/-- The table cell `lookup` would copy: `None` unless loaded; the ICAO24
table is consulted first, then the N-number table. -/
def faaFind (db : FAADb) (icao24 callsign : Option String) : Option Nat :=
  if db.loaded = false then none
  else
    match faaFindIcao db icao24 with
    | some a => some a
    | none => faaFindCallsign db callsign

/-- Embeds `FAADatabase.lookup`: on a hit the stored dict is copied into a
fresh heap cell (address `h.length`) whose address is returned; on a miss the
heap is untouched and `None` is returned. -/
def faaLookup (db : FAADb) (h : Heap) (icao24 callsign : Option String) :
    Option Nat × Heap :=
  match faaFind db icao24 callsign with
  | some a => (some h.length, h ++ [h.getD a []])
  | none => (none, h)

/-- The dict contents a `lookup` call returns (the contents of the fresh
copy, which equal the contents of the stored cell). -/
def lookupContents (db : FAADb) (h : Heap) (icao24 callsign : Option String) :
    Option PyDict :=
  (faaFind db icao24 callsign).map (fun a => h.getD a [])

/-! ## Heuristic type inference (flight_manager.py, _infer_aircraft_type,
lines 551-593) -/

def milPatterns : List String :=
  ["REACH", "TETON", "EVAC", "RESCUE", "ARMY", "NAVY", "GUARD", "DUKE",
   "HAWK", "VIPER", "RCH", "CNV", "PAT", "IRON", "STEEL", "BLADE", "SABER",
   "TOPCAT", "BOXER", "KARMA", "RAID", "SKULL", "BONE", "DEATH"]

def heliPatterns : List String :=
  ["LIFE", "MEDEVAC", "HELI", "COPTER", "AIR1", "MERCY"]

def airlineCodes : List String :=
  ["AAL", "UAL", "DAL", "SWA", "JBU", "ASA", "FFT", "NKS", "SKW", "ENY",
   "RPA", "EDV", "FDX", "UPS", "GTI", "ABX", "EJA", "LXJ", "XOJ", "TVS",
   "XAJ", "LEA", "WWI"]

/-- Python truthiness of an optional int (`None` and `0` are falsy). -/
def pyIntTruthy (o : Option Int) : Bool :=
  match o with
  | some n => decide (n ≠ 0)
  | none => false

/-- Embeds `_infer_aircraft_type`.  `callsign` may be `None`
(`(callsign or '').upper().strip()`); `altitude_ft` and `speed_knots` may be
`None` and are used only inside truthiness guards. -/
def inferAircraftType (callsign : Option String) (altitudeFt speedKnots : Option Int) :
    String :=
  let cs := pyStrip (pyUpper (callsign.getD ""))
  if milPatterns.any (fun p => pyStartsWith cs p) then "MIL"
  else if heliPatterns.any (fun p => strContainsSub cs p) then "HELO"
  else if pyIntTruthy altitudeFt && pyIntTruthy speedKnots &&
      decide (altitudeFt.getD 0 < 3000) && decide (speedKnots.getD 0 < 120) then
    "HELO"
  else if airlineCodes.any (fun p => pyStartsWith cs p) then "JET"
  else if pyIntTruthy altitudeFt && decide (altitudeFt.getD 0 > 25000) then "JET"
  else if pyStartsWith cs "N" && decide (cs.length ≤ 6) then "GA"
  else "UNK"

/-! ## Helper lemmas: cooldown dictionary folds -/

theorem cdSetAll_apply (cd : String → Option ℤ) (l : List String) (t : ℤ)
    (x : String) : cdSetAll cd l t x = if x ∈ l then some t else cd x := by
  induction l generalizing cd with
  | nil => simp [cdSetAll]
  | cons j rest ih =>
    show cdSetAll (cdSet cd j t) rest t x = _
    rw [ih]
    by_cases hr : x ∈ rest
    · simp [hr]
    · by_cases hj : x = j <;> simp [hr, hj, cdSet]

theorem markNew_go (l : List String) (cd : String → Option ℤ) (b : Bool)
    (now : ℤ) :
    l.foldl (fun p i => if (p.1 i).isSome then p else (cdSet p.1 i now, true))
        (cd, b) =
      (fun x => if x ∈ l ∧ cd x = none then some now else cd x,
       b || l.any (fun i => (cd i).isNone)) := by
  induction l generalizing cd b with
  | nil => simp
  | cons j rest ih =>
    simp only [List.foldl_cons, List.any_cons]
    by_cases hj : (cd j).isSome
    · rw [if_pos hj, ih]
      have hjn : ¬ cd j = none := by
        cases hcd : cd j <;> simp [hcd] at hj ⊢
      refine Prod.ext ?_ ?_
      · funext x
        simp only
        by_cases hx : x = j
        · subst hx
          simp [hjn]
        · simp [hx]
      · have : (cd j).isNone = false := by
          cases hcd : cd j <;> simp [hcd] at hj ⊢
        simp [this]
    · have hjn : cd j = none := by
        cases hcd : cd j <;> simp [hcd] at hj ⊢
      rw [if_neg hj, ih]
      refine Prod.ext ?_ ?_
      · funext x
        simp only
        by_cases hx : x = j
        · subst hx
          simp [cdSet, hjn]
        · by_cases hr : x ∈ rest <;> simp [cdSet, hx, hr]
      · simp [hjn]

theorem markNew_eq (cd : String → Option ℤ) (now : ℤ) (l : List String) :
    markNew cd now l =
      (fun x => if x ∈ l ∧ cd x = none then some now else cd x,
       l.any (fun i => (cd i).isNone)) := by
  simpa using markNew_go l cd false now

/-! ## Helper lemmas: single-step behaviour of has_live_content -/

theorem hasLive_empty (cfg : SessionCfg) (s : SessionState) (now : ℤ) :
    hasLiveContent cfg s [] now = (false, ⟨none, s.cooldown⟩) := by
  simp [hasLiveContent]

theorem hasLive_idle_trigger (cfg : SessionCfg) (s : SessionState)
    (flights : List String) (now : ℤ)
    (h0 : s.session = none) (h1 : flights ≠ [])
    (h2 : flights.any
      (fun i => ((cleanCooldownFlights cfg s.cooldown now) i).isNone) = true) :
    hasLiveContent cfg s flights now =
      (true, ⟨some now,
        cdSetAll (cleanCooldownFlights cfg s.cooldown now) flights now⟩) := by
  obtain ⟨f0, rest, rfl⟩ := List.exists_cons_of_ne_nil h1
  simp [hasLiveContent, h0, h2]

theorem hasLive_idle_suppressed (cfg : SessionCfg) (s : SessionState)
    (flights : List String) (now : ℤ)
    (h0 : s.session = none) (h1 : flights ≠ [])
    (h2 : flights.any
      (fun i => ((cleanCooldownFlights cfg s.cooldown now) i).isNone) = false) :
    hasLiveContent cfg s flights now =
      (false, ⟨none, cleanCooldownFlights cfg s.cooldown now⟩) := by
  obtain ⟨f0, rest, rfl⟩ := List.exists_cons_of_ne_nil h1
  simp [hasLiveContent, h0, h2]

theorem hasLive_active_expired (cfg : SessionCfg) (s : SessionState)
    (flights : List String) (now st : ℤ)
    (h0 : s.session = some st) (h1 : flights ≠ [])
    (h2 : cfg.maxInterruptionTime ≤ now - st) :
    hasLiveContent cfg s flights now =
      (false, ⟨none,
        cdSetAll (cleanCooldownFlights cfg s.cooldown now) flights now⟩) := by
  obtain ⟨f0, rest, rfl⟩ := List.exists_cons_of_ne_nil h1
  simp [hasLiveContent, h0, ge_iff_le, h2]

theorem hasLive_active_new (cfg : SessionCfg) (s : SessionState)
    (flights : List String) (now st : ℤ)
    (h0 : s.session = some st) (h1 : flights ≠ [])
    (h2 : ¬ cfg.maxInterruptionTime ≤ now - st)
    (h3 : flights.any
      (fun i => ((cleanCooldownFlights cfg s.cooldown now) i).isNone) = true) :
    hasLiveContent cfg s flights now =
      (true, ⟨some now, (markNew (cleanCooldownFlights cfg s.cooldown now) now
        flights).1⟩) := by
  obtain ⟨f0, rest, rfl⟩ := List.exists_cons_of_ne_nil h1
  simp [hasLiveContent, h0, ge_iff_le, h2, markNew_eq, h3]

theorem hasLive_active_continue (cfg : SessionCfg) (s : SessionState)
    (flights : List String) (now st : ℤ)
    (h0 : s.session = some st) (h1 : flights ≠ [])
    (h2 : ¬ cfg.maxInterruptionTime ≤ now - st)
    (h3 : flights.any
      (fun i => ((cleanCooldownFlights cfg s.cooldown now) i).isNone) = false) :
    hasLiveContent cfg s flights now =
      (true, ⟨some st, (markNew (cleanCooldownFlights cfg s.cooldown now) now
        flights).1⟩) := by
  obtain ⟨f0, rest, rfl⟩ := List.exists_cons_of_ne_nil h1
  simp [hasLiveContent, h0, ge_iff_le, h2, markNew_eq, h3]

/-! ## Claim theorems -/

/-- C1: whenever has_live_content (the should_interrupt decision point) is
evaluated while a session is active and at least max_session_duration has
elapsed since started_at, the manager transitions to inactive, refreshes the
cooldown entry of every currently-present aircraft to the evaluation time,
and returns false; consequently any queried post state that is still active
satisfies (now - started_at) < max_session_duration, and with a single
aircraft present continuously, an evaluation made max_session_duration or
more after the first one returns false. -/
theorem session_time_budget (cfg : SessionCfg) (s : SessionState)
    (flights : List String) (now st : ℤ)
    (hmax : 0 < cfg.maxInterruptionTime)
    (hs : s.session = some st) (hf : flights ≠ [])
    (helapsed : cfg.maxInterruptionTime ≤ now - st) :
    (hasLiveContent cfg s flights now).1 = false ∧
    (hasLiveContent cfg s flights now).2.session = none ∧
    (∀ i ∈ flights, (hasLiveContent cfg s flights now).2.cooldown i = some now) ∧
    (∀ (s2 : SessionState) (f2 : List String) (n2 t2 : ℤ),
      (hasLiveContent cfg s2 f2 n2).2.session = some t2 →
      n2 - t2 < cfg.maxInterruptionTime) ∧
    (∀ (a : String) (t1 t2 : ℤ), cfg.maxInterruptionTime ≤ t2 - t1 →
      (runEvals cfg initialSessionState [([a], t1), ([a], t2)]).1 =
        [true, false]) := by
  have e := hasLive_active_expired cfg s flights now st hs hf helapsed
  refine ⟨by rw [e], by rw [e], ?_, ?_, ?_⟩
  · intro i hi
    rw [e]
    show cdSetAll _ flights now i = some now
    rw [cdSetAll_apply]
    simp [hi]
  · intro s2 f2 n2 t2 hpost
    by_cases hf2 : f2 = []
    · subst hf2
      rw [hasLive_empty] at hpost
      simp at hpost
    · cases hs2 : s2.session with
      | none =>
        by_cases hany : f2.any
            (fun i => ((cleanCooldownFlights cfg s2.cooldown n2) i).isNone) = true
        · rw [hasLive_idle_trigger cfg s2 f2 n2 hs2 hf2 hany] at hpost
          simp only at hpost
          obtain rfl : n2 = t2 := by simpa using hpost
          omega
        · rw [hasLive_idle_suppressed cfg s2 f2 n2 hs2 hf2
            (by simpa using hany)] at hpost
          simp at hpost
      | some st2 =>
        by_cases hexp : cfg.maxInterruptionTime ≤ n2 - st2
        · rw [hasLive_active_expired cfg s2 f2 n2 st2 hs2 hf2 hexp] at hpost
          simp at hpost
        · by_cases hany : f2.any
              (fun i => ((cleanCooldownFlights cfg s2.cooldown n2) i).isNone) = true
          · rw [hasLive_active_new cfg s2 f2 n2 st2 hs2 hf2 hexp hany] at hpost
            obtain rfl : n2 = t2 := by simpa using hpost
            omega
          · rw [hasLive_active_continue cfg s2 f2 n2 st2 hs2 hf2 hexp
              (by simpa using hany)] at hpost
            obtain rfl : st2 = t2 := by simpa using hpost
            omega
  · intro a t1 t2 hle
    have e1 := hasLive_idle_trigger cfg initialSessionState [a] t1 rfl
      (by simp) (by simp [cleanCooldownFlights, initialSessionState])
    have e2 := hasLive_active_expired cfg
      ⟨some t1, cdSetAll (cleanCooldownFlights cfg initialSessionState.cooldown t1)
        [a] t1⟩ [a] t2 t1 rfl (by simp) hle
    simp [runEvals, e1, e2]

/-- Witness for C1 at a concrete input: default configuration (30 s budget,
120 s cooldown), a session started at time 0 with aircraft "a" present,
queried at time 40. -/
theorem session_time_budget_witness :
    ((0:ℤ) < 30 ∧ (⟨some 0, fun _ => none⟩ : SessionState).session = some 0 ∧
      (["a"] : List String) ≠ [] ∧ (30:ℤ) ≤ 40 - 0) ∧
    ((hasLiveContent ⟨30, 120⟩ ⟨some 0, fun _ => none⟩ ["a"] 40).1 = false ∧
    (hasLiveContent ⟨30, 120⟩ ⟨some 0, fun _ => none⟩ ["a"] 40).2.session = none ∧
    (∀ i ∈ (["a"] : List String),
      (hasLiveContent ⟨30, 120⟩ ⟨some 0, fun _ => none⟩ ["a"] 40).2.cooldown i =
        some 40) ∧
    (∀ (s2 : SessionState) (f2 : List String) (n2 t2 : ℤ),
      (hasLiveContent ⟨30, 120⟩ s2 f2 n2).2.session = some t2 → n2 - t2 < 30) ∧
    (∀ (a : String) (t1 t2 : ℤ), (30:ℤ) ≤ t2 - t1 →
      (runEvals ⟨30, 120⟩ initialSessionState [([a], t1), ([a], t2)]).1 =
        [true, false])) :=
  ⟨⟨by decide, rfl, by decide, by decide⟩,
   session_time_budget ⟨30, 120⟩ ⟨some 0, fun _ => none⟩ ["a"] 40 0
     (by decide) rfl (by decide) (by decide)⟩

/-- C2: an evaluation made while no session is active transitions to Active
exactly when the flight set is non-empty and some present aircraft is not in
cooldown; it then records started_at = now, puts every present aircraft
(not only the trigger) into cooldown at now, and returns true.  If every
present aircraft is in cooldown, or the set is empty, it stays inactive and
returns false. -/
theorem idle_evaluation_behaviour (cfg : SessionCfg) (s : SessionState)
    (flights : List String) (now : ℤ) (hs : s.session = none) :
    ((flights ≠ [] ∧
        ∃ i ∈ flights, cleanCooldownFlights cfg s.cooldown now i = none) →
      (hasLiveContent cfg s flights now).1 = true ∧
      (hasLiveContent cfg s flights now).2.session = some now ∧
      ∀ i ∈ flights,
        (hasLiveContent cfg s flights now).2.cooldown i = some now) ∧
    ((flights ≠ [] ∧
        ∀ i ∈ flights, (cleanCooldownFlights cfg s.cooldown now i).isSome) →
      (hasLiveContent cfg s flights now).1 = false ∧
      (hasLiveContent cfg s flights now).2.session = none) ∧
    (flights = [] →
      (hasLiveContent cfg s flights now).1 = false ∧
      (hasLiveContent cfg s flights now).2.session = none) := by
  refine ⟨?_, ?_, ?_⟩
  · rintro ⟨hf, i0, hi0, hnone⟩
    have hany : flights.any
        (fun i => ((cleanCooldownFlights cfg s.cooldown now) i).isNone) = true := by
      rw [List.any_eq_true]
      exact ⟨i0, hi0, by simp [hnone]⟩
    have e := hasLive_idle_trigger cfg s flights now hs hf hany
    refine ⟨by rw [e], by rw [e], ?_⟩
    intro i hi
    rw [e]
    show cdSetAll _ flights now i = some now
    rw [cdSetAll_apply]
    simp [hi]
  · rintro ⟨hf, hall⟩
    have hany : flights.any
        (fun i => ((cleanCooldownFlights cfg s.cooldown now) i).isNone) = false := by
      rw [List.any_eq_false]
      intro i hi
      have h2 := hall i hi
      simp only [Option.isSome_iff_ne_none] at h2
      simp [Option.isNone_iff_eq_none, h2]
    have e := hasLive_idle_suppressed cfg s flights now hs hf hany
    exact ⟨by rw [e], by rw [e]⟩
  · rintro rfl
    rw [hasLive_empty]
    exact ⟨rfl, rfl⟩

/-- Witness for C2 at a concrete input: idle manager whose cooldown dict
already holds "b" (set at time 0), evaluated at time 10 with aircraft "a"
and "b" present: "a" is not in cooldown, so a session starts. -/
theorem idle_evaluation_behaviour_witness :
    ((⟨none, fun x => if x = "b" then some 0 else none⟩ : SessionState).session =
        none ∧
      ((["a", "b"] : List String) ≠ [] ∧
        ∃ i ∈ (["a", "b"] : List String),
          cleanCooldownFlights ⟨30, 120⟩
            (fun x => if x = "b" then some 0 else none) 10 i = none)) ∧
    ((hasLiveContent ⟨30, 120⟩
        ⟨none, fun x => if x = "b" then some 0 else none⟩ ["a", "b"] 10).1 =
      true ∧
    (hasLiveContent ⟨30, 120⟩
        ⟨none, fun x => if x = "b" then some 0 else none⟩ ["a", "b"] 10).2.session =
      some 10 ∧
    ∀ i ∈ (["a", "b"] : List String),
      (hasLiveContent ⟨30, 120⟩
        ⟨none, fun x => if x = "b" then some 0 else none⟩ ["a", "b"] 10).2.cooldown
          i = some 10) :=
  ⟨⟨rfl, by decide, ⟨"a", by decide, by decide⟩⟩,
   (idle_evaluation_behaviour ⟨30, 120⟩
      ⟨none, fun x => if x = "b" then some 0 else none⟩ ["a", "b"] 10 rfl).1
     ⟨by decide, ⟨"a", by decide, by decide⟩⟩⟩

/-- C3: if a session is active, within its time budget, and some present
aircraft is not in cooldown (a new arrival mid-session), then that aircraft
is added to cooldown, started_at is reset to the evaluation time, the session
stays active and the call returns true; consequently a session started by
aircraft A at t1 and joined by aircraft B at t2 (before expiry) is still
active, and still returns true, at a time t3 that is at least
max_session_duration after t1 but within the budget measured from t2. -/
theorem mid_session_new_arrival (cfg : SessionCfg) (s : SessionState)
    (flights : List String) (now st : ℤ) (i0 : String)
    (hs : s.session = some st) (hf : flights ≠ [])
    (hlt : now - st < cfg.maxInterruptionTime)
    (hi : i0 ∈ flights)
    (hnew : cleanCooldownFlights cfg s.cooldown now i0 = none) :
    (hasLiveContent cfg s flights now).1 = true ∧
    (hasLiveContent cfg s flights now).2.session = some now ∧
    (hasLiveContent cfg s flights now).2.cooldown i0 = some now ∧
    (∀ j ∈ flights,
      ((hasLiveContent cfg s flights now).2.cooldown j).isSome) ∧
    (∀ (a b : String) (t1 t2 t3 : ℤ), a ≠ b → t1 ≤ t2 → t2 ≤ t3 →
      t2 - t1 < cfg.maxInterruptionTime → t3 - t2 < cfg.maxInterruptionTime →
      cfg.maxInterruptionTime ≤ t3 - t1 → t3 - t1 ≤ cfg.cooldownDuration →
      (runEvals cfg initialSessionState
          [([a], t1), ([a, b], t2), ([a, b], t3)]).1 = [true, true, true] ∧
      (runEvals cfg initialSessionState
          [([a], t1), ([a, b], t2), ([a, b], t3)]).2.session = some t2) := by
  have hexp : ¬ cfg.maxInterruptionTime ≤ now - st := by omega
  have hany : flights.any
      (fun i => ((cleanCooldownFlights cfg s.cooldown now) i).isNone) = true :=
    List.any_eq_true.2 ⟨i0, hi, by simp [hnew]⟩
  have e := hasLive_active_new cfg s flights now st hs hf hexp hany
  refine ⟨by rw [e], by rw [e], ?_, ?_, ?_⟩
  · rw [e]
    show (markNew _ now flights).1 i0 = some now
    rw [markNew_eq]
    simp [hi, hnew]
  · intro j hj
    rw [e]
    show ((markNew _ now flights).1 j).isSome
    rw [markNew_eq]
    simp only
    by_cases hcj : cleanCooldownFlights cfg s.cooldown now j = none
    · simp [hj, hcj]
    · simp [hcj, Option.isSome_iff_ne_none]
  · intro a b t1 t2 t3 hab h12 h23 hlt2 hlt3 hge hcd
    have e1 := hasLive_idle_trigger cfg initialSessionState [a] t1 rfl
      (by simp) (by simp [cleanCooldownFlights, initialSessionState])
    set cd1 := cdSetAll
      (cleanCooldownFlights cfg initialSessionState.cooldown t1) [a] t1 with hcd1def
    have hcd1 : ∀ x, cd1 x = if x = a then some t1 else none := by
      intro x
      rw [hcd1def, cdSetAll_apply]
      by_cases hx : x = a <;>
        simp [hx, cleanCooldownFlights, initialSessionState]
    have hclean1a : cleanCooldownFlights cfg cd1 t2 a = some t1 := by
      have ha : cd1 a = some t1 := by rw [hcd1]; simp
      simp only [cleanCooldownFlights, ha]
      rw [if_neg (by omega)]
    have hclean1b : cleanCooldownFlights cfg cd1 t2 b = none := by
      have hb : cd1 b = none := by rw [hcd1]; simp [Ne.symm hab]
      simp [cleanCooldownFlights, hb]
    have hexp2 : ¬ cfg.maxInterruptionTime ≤ t2 - t1 := by omega
    have hany2 : ([a, b] : List String).any
        (fun i => ((cleanCooldownFlights cfg cd1 t2) i).isNone) = true :=
      List.any_eq_true.2 ⟨b, by simp, by simp [hclean1b]⟩
    have e2 := hasLive_active_new cfg ⟨some t1, cd1⟩ [a, b] t2 t1 rfl
      (by simp) hexp2 hany2
    set cd2 := (markNew (cleanCooldownFlights cfg cd1 t2) t2 [a, b]).1 with hcd2def
    have hcd2 : ∀ x, cd2 x =
        if x = b then some t2 else if x = a then some t1 else none := by
      intro x
      rw [hcd2def, markNew_eq]
      simp only
      by_cases hxa : x = a
      · subst hxa
        simp [hclean1a, hab]
      · by_cases hxb : x = b
        · subst hxb
          simp [hclean1b]
        · have hx : cd1 x = none := by rw [hcd1]; simp [hxa]
          simp [hxa, hxb, cleanCooldownFlights, hx]
    have hexp3 : ¬ cfg.maxInterruptionTime ≤ t3 - t2 := by omega
    have hany3 : ([a, b] : List String).any
        (fun i => ((cleanCooldownFlights cfg cd2 t3) i).isNone) = false := by
      rw [List.any_eq_false]
      intro x hx
      rcases (by simpa using hx : x = a ∨ x = b) with rfl | rfl
      · have hxa : cd2 x = some t1 := by rw [hcd2]; simp [hab]
        simp only [cleanCooldownFlights, hxa]
        rw [if_neg (by omega)]
        simp
      · have hxb : cd2 x = some t2 := by rw [hcd2]; simp
        simp only [cleanCooldownFlights, hxb]
        rw [if_neg (by omega)]
        simp
    have e3 := hasLive_active_continue cfg ⟨some t2, cd2⟩ [a, b] t3 t2 rfl
      (by simp) hexp3 hany3
    constructor
    · simp [runEvals, e1, ← hcd1def, e2, ← hcd2def, e3]
    · simp [runEvals, e1, ← hcd1def, e2, ← hcd2def, e3]

/-- Witness for C3 at a concrete input: default configuration, a session
started at time 0 by aircraft "a", evaluated at time 10 with "a" and the new
arrival "b" present. -/
theorem mid_session_new_arrival_witness :
    ((⟨some 0, fun x => if x = "a" then some 0 else none⟩ : SessionState).session =
        some 0 ∧
      (["a", "b"] : List String) ≠ [] ∧ (10:ℤ) - 0 < 30 ∧
      "b" ∈ (["a", "b"] : List String) ∧
      cleanCooldownFlights ⟨30, 120⟩
        (fun x => if x = "a" then some 0 else none) 10 "b" = none) ∧
    ((hasLiveContent ⟨30, 120⟩
        ⟨some 0, fun x => if x = "a" then some 0 else none⟩ ["a", "b"] 10).1 =
      true ∧
    (hasLiveContent ⟨30, 120⟩
        ⟨some 0, fun x => if x = "a" then some 0 else none⟩
        ["a", "b"] 10).2.session = some 10 ∧
    (hasLiveContent ⟨30, 120⟩
        ⟨some 0, fun x => if x = "a" then some 0 else none⟩
        ["a", "b"] 10).2.cooldown "b" = some 10 ∧
    (∀ j ∈ (["a", "b"] : List String),
      ((hasLiveContent ⟨30, 120⟩
        ⟨some 0, fun x => if x = "a" then some 0 else none⟩
        ["a", "b"] 10).2.cooldown j).isSome) ∧
    (∀ (a b : String) (t1 t2 t3 : ℤ), a ≠ b → t1 ≤ t2 → t2 ≤ t3 →
      t2 - t1 < 30 → t3 - t2 < 30 → (30:ℤ) ≤ t3 - t1 → t3 - t1 ≤ 120 →
      (runEvals ⟨30, 120⟩ initialSessionState
          [([a], t1), ([a, b], t2), ([a, b], t3)]).1 = [true, true, true] ∧
      (runEvals ⟨30, 120⟩ initialSessionState
          [([a], t1), ([a, b], t2), ([a, b], t3)]).2.session = some t2)) :=
  ⟨⟨rfl, by decide, by decide, by decide, by decide⟩,
   mid_session_new_arrival ⟨30, 120⟩
     ⟨some 0, fun x => if x = "a" then some 0 else none⟩ ["a", "b"] 10 0 "b"
     rfl (by decide) (by decide) (by decide) (by decide)⟩

/-- C4 counterexample: with the default configuration (30 s budget, 120 s
cooldown) and one aircraft present across three evaluations at times 0, 1, 2
(spacing 1 s, far below cooldown_duration; the aircraft never leaves range
and max_session_duration never elapses), should_interrupt/has_live_content
returns true on all three evaluations, not exactly once. -/
theorem cooldown_suppression_counterexample :
    (runEvals ⟨30, 120⟩ initialSessionState
        [(["a"], 0), (["a"], 1), (["a"], 2)]).1 = [true, true, true] ∧
    (runEvals ⟨30, 120⟩ initialSessionState
        [(["a"], 0), (["a"], 1), (["a"], 2)]).1.count true ≠ 1 := by
  constructor
  · decide
  · decide

/-- C4 amended: with one aircraft present continuously across three
evaluations whose spacings stay within cooldown_duration, the first
evaluation returns true (a session starts exactly once), and each later
evaluation returns true exactly while that session is still within
max_session_duration of the first appearance; once the budget elapses the
evaluation returns false, and the cooldown then keeps suppressing re-triggers. -/
theorem cooldown_suppression_amended (cfg : SessionCfg) (a : String)
    (t1 t2 t3 : ℤ)
    (h12 : t1 ≤ t2) (h23 : t2 ≤ t3)
    (hcd2 : t2 - t1 ≤ cfg.cooldownDuration)
    (hcd3 : t3 - t1 ≤ cfg.cooldownDuration)
    (hcd3b : t3 - t2 ≤ cfg.cooldownDuration) :
    (runEvals cfg initialSessionState [([a], t1), ([a], t2), ([a], t3)]).1 =
      [true,
       decide (t2 - t1 < cfg.maxInterruptionTime),
       decide (t2 - t1 < cfg.maxInterruptionTime) &&
         decide (t3 - t1 < cfg.maxInterruptionTime)] := by
  have e1 := hasLive_idle_trigger cfg initialSessionState [a] t1 rfl
    (by simp) (by simp [cleanCooldownFlights, initialSessionState])
  set cd1 := cdSetAll
    (cleanCooldownFlights cfg initialSessionState.cooldown t1) [a] t1 with hcd1def
  have hcd1 : cd1 a = some t1 := by
    rw [hcd1def, cdSetAll_apply]
    simp
  have hclean2a : cleanCooldownFlights cfg cd1 t2 a = some t1 := by
    simp only [cleanCooldownFlights, hcd1]
    rw [if_neg (by omega)]
  by_cases hb : t2 - t1 < cfg.maxInterruptionTime
  · have hexp2 : ¬ cfg.maxInterruptionTime ≤ t2 - t1 := by omega
    have hany2 : ([a] : List String).any
        (fun i => ((cleanCooldownFlights cfg cd1 t2) i).isNone) = false := by
      rw [List.any_eq_false]
      intro x hx
      obtain rfl : x = a := by simpa using hx
      simp [hclean2a]
    have e2 := hasLive_active_continue cfg ⟨some t1, cd1⟩ [a] t2 t1 rfl
      (by simp) hexp2 hany2
    set cd2 := (markNew (cleanCooldownFlights cfg cd1 t2) t2 [a]).1 with hcd2def
    have hcd2a : cd2 a = some t1 := by
      rw [hcd2def, markNew_eq]
      simp [hclean2a]
    have hclean3a : cleanCooldownFlights cfg cd2 t3 a = some t1 := by
      simp only [cleanCooldownFlights, hcd2a]
      rw [if_neg (by omega)]
    by_cases hc : t3 - t1 < cfg.maxInterruptionTime
    · have hexp3 : ¬ cfg.maxInterruptionTime ≤ t3 - t1 := by omega
      have hany3 : ([a] : List String).any
          (fun i => ((cleanCooldownFlights cfg cd2 t3) i).isNone) = false := by
        rw [List.any_eq_false]
        intro x hx
        obtain rfl : x = a := by simpa using hx
        simp [hclean3a]
      have e3 := hasLive_active_continue cfg ⟨some t1, cd2⟩ [a] t3 t1 rfl
        (by simp) hexp3 hany3
      simp [runEvals, e1, ← hcd1def, e2, ← hcd2def, e3, hb, hc]
    · have e3 := hasLive_active_expired cfg ⟨some t1, cd2⟩ [a] t3 t1 rfl
        (by simp) (by omega)
      simp [runEvals, e1, ← hcd1def, e2, ← hcd2def, e3, hb, hc]
  · have e2 := hasLive_active_expired cfg ⟨some t1, cd1⟩ [a] t2 t1 rfl
      (by simp) (by omega)
    set cd2 := cdSetAll (cleanCooldownFlights cfg cd1 t2) [a] t2 with hcd2def
    have hcd2a : cd2 a = some t2 := by
      rw [hcd2def, cdSetAll_apply]
      simp
    have hclean3a : cleanCooldownFlights cfg cd2 t3 a = some t2 := by
      simp only [cleanCooldownFlights, hcd2a]
      rw [if_neg (by omega)]
    have hany3 : ([a] : List String).any
        (fun i => ((cleanCooldownFlights cfg cd2 t3) i).isNone) = false := by
      rw [List.any_eq_false]
      intro x hx
      obtain rfl : x = a := by simpa using hx
      simp [hclean3a]
    have e3 := hasLive_idle_suppressed cfg ⟨none, cd2⟩ [a] t3 rfl
      (by simp) hany3
    simp [runEvals, e1, ← hcd1def, e2, ← hcd2def, e3, hb]

/-- Witness for the amended C4 at a concrete input: default configuration,
aircraft "a" evaluated at times 0, 10, 20 (all spacings within the cooldown):
the results are true, true, true because the session budget never elapses. -/
theorem cooldown_suppression_amended_witness :
    ((0:ℤ) ≤ 10 ∧ (10:ℤ) ≤ 20 ∧ (10:ℤ) - 0 ≤ 120 ∧ (20:ℤ) - 0 ≤ 120 ∧
      (20:ℤ) - 10 ≤ 120) ∧
    (runEvals ⟨30, 120⟩ initialSessionState
        [(["a"], 0), (["a"], 10), (["a"], 20)]).1 =
      [true,
       decide ((10:ℤ) - 0 < 30),
       decide ((10:ℤ) - 0 < 30) && decide ((20:ℤ) - 0 < 30)] :=
  ⟨⟨by decide, by decide, by decide, by decide, by decide⟩,
   cooldown_suppression_amended ⟨30, 120⟩ "a" 0 10 20
     (by decide) (by decide) (by decide) (by decide) (by decide)⟩

/-! ## Helper lemmas: the collection loop of _fetch_flights_internal -/

theorem collectFlights_eq (cfg : FetchCfg) (states : List StateVec)
    (acc : List FlightRec) :
    collectFlights cfg states acc =
      acc ++ (((states.filter (fun sv => validState cfg sv)).take
        (if cfg.maxFlights ≤ acc.length then 1
         else cfg.maxFlights - acc.length)).map (fun sv => mkRec cfg sv)) := by
  induction states generalizing acc with
  | nil => simp [collectFlights]
  | cons sv rest ih =>
    simp only [collectFlights]
    by_cases hv : validState cfg sv
    · rw [if_pos hv, List.filter_cons_of_pos hv]
      by_cases hstop : cfg.maxFlights ≤ (acc ++ [mkRec cfg sv]).length
      · rw [if_pos hstop]
        have hlen : (acc ++ [mkRec cfg sv]).length = acc.length + 1 := by simp
        have hk : (if cfg.maxFlights ≤ acc.length then 1
            else cfg.maxFlights - acc.length) = 1 := by
          rw [hlen] at hstop
          split_ifs <;> omega
        rw [hk]
        simp
      · rw [if_neg hstop, ih]
        have hlen : (acc ++ [mkRec cfg sv]).length = acc.length + 1 := by simp
        rw [hlen] at hstop
        have h1 : ¬ cfg.maxFlights ≤ acc.length := by omega
        have hk2 : (if cfg.maxFlights ≤ acc.length + 1 then 1
            else cfg.maxFlights - (acc.length + 1)) =
              cfg.maxFlights - acc.length - 1 := by
          split_ifs <;> omega
        have hk : (if cfg.maxFlights ≤ acc.length then 1
            else cfg.maxFlights - acc.length) = cfg.maxFlights - acc.length :=
          if_neg h1
        rw [hlen, hk2, hk]
        obtain ⟨m, hm⟩ : ∃ m, cfg.maxFlights - acc.length = m + 1 :=
          ⟨cfg.maxFlights - acc.length - 1, by omega⟩
        rw [hm]
        simp [List.take_succ_cons]
    · rw [if_neg hv, List.filter_cons_of_neg hv, ih]

/-- With a positive cap (the default is 10), the collection loop keeps
exactly the first max_flights valid state vectors, in query order. -/
theorem processStates_eq (cfg : FetchCfg) (states : List StateVec)
    (hm : 1 ≤ cfg.maxFlights) :
    processStates cfg states =
      List.insertionSort recLe
        (((states.filter (fun sv => validState cfg sv)).take
          cfg.maxFlights).map (fun sv => mkRec cfg sv)) := by
  unfold processStates
  rw [collectFlights_eq]
  have h0 : ¬ cfg.maxFlights ≤ ([] : List FlightRec).length := by
    simp
    omega
  rw [if_neg h0]
  simp

/-- C5 counterexample: home (0,0), max_flights = 1, minimum altitude 500 m;
the query returns a far aircraft first and a strictly closer valid aircraft
second.  The published list keeps only the far one: the code truncates to
max_flights BEFORE sorting by distance, so the retained entries are the
first valid ones in query order, not the closest ones among all valid
entries as the claim states. -/
theorem publish_cap_counterexample :
    (processStates ⟨0, 0, 111, 1, 500⟩
      [⟨"FAR", some "UAL1", some 10, some 0, some 10000, false⟩,
       ⟨"NEAR", some "UAL2", some 1, some 0, some 10000, false⟩]).map
        (fun r => r.icao24) = ["FAR"] ∧
    validState ⟨0, 0, 111, 1, 500⟩
      ⟨"NEAR", some "UAL2", some 1, some 0, some 10000, false⟩ = true ∧
    (mkRec ⟨0, 0, 111, 1, 500⟩
        ⟨"NEAR", some "UAL2", some 1, some 0, some 10000, false⟩).distSq <
      (mkRec ⟨0, 0, 111, 1, 500⟩
        ⟨"FAR", some "UAL1", some 10, some 0, some 10000, false⟩).distSq ∧
    mkRec ⟨0, 0, 111, 1, 500⟩
        ⟨"NEAR", some "UAL2", some 1, some 0, some 10000, false⟩ ∉
      processStates ⟨0, 0, 111, 1, 500⟩
        [⟨"FAR", some "UAL1", some 10, some 0, some 10000, false⟩,
         ⟨"NEAR", some "UAL2", some 1, some 0, some 10000, false⟩] := by
  refine ⟨by decide, by decide, by decide, by decide⟩

/-- C5 amended: for every successful poll cycle with max_flights ≥ 1, the
published list is a permutation of the FIRST max_flights valid entries in
query order (valid: airborne, non-blank callsign, both coordinates present,
and no reported nonzero altitude below the minimum filter); it has at most
max_flights entries, is sorted closest first by distance, and every
published entry comes from a valid entry of the response — but the retained
entries are not necessarily the closest among all valid ones. -/
theorem publish_list_amended (cfg : FetchCfg) (states : List StateVec)
    (hm : 1 ≤ cfg.maxFlights) :
    (processStates cfg states).Perm
      (((states.filter (fun sv => validState cfg sv)).take cfg.maxFlights).map
        (fun sv => mkRec cfg sv)) ∧
    (processStates cfg states).length ≤ cfg.maxFlights ∧
    (processStates cfg states).Sorted recLe ∧
    (∀ r ∈ processStates cfg states,
      ∃ sv ∈ states, validState cfg sv = true ∧ r = mkRec cfg sv) := by
  have hperm : (processStates cfg states).Perm
      (((states.filter (fun sv => validState cfg sv)).take cfg.maxFlights).map
        (fun sv => mkRec cfg sv)) := by
    rw [processStates_eq cfg states hm]
    exact List.perm_insertionSort recLe _
  refine ⟨hperm, ?_, ?_, ?_⟩
  · rw [hperm.length_eq]
    calc (((states.filter (fun sv => validState cfg sv)).take
          cfg.maxFlights).map (fun sv => mkRec cfg sv)).length
        = ((states.filter (fun sv => validState cfg sv)).take
            cfg.maxFlights).length := by rw [List.length_map]
      _ ≤ cfg.maxFlights := List.length_take_le _ _
  · rw [processStates_eq cfg states hm]
    exact List.sorted_insertionSort recLe _
  · intro r hr
    have hr2 := hperm.mem_iff.1 hr
    rw [List.mem_map] at hr2
    obtain ⟨sv, hsv, rfl⟩ := hr2
    have hsv2 : sv ∈ states.filter (fun sv => validState cfg sv) :=
      List.take_subset _ _ hsv
    rw [List.mem_filter] at hsv2
    exact ⟨sv, hsv2.1, hsv2.2, rfl⟩

/-- Witness for the amended C5 at a concrete input: the two-aircraft response
of the counterexample scenario with max_flights = 1. -/
theorem publish_list_amended_witness :
    1 ≤ (1 : Nat) ∧
    ((processStates ⟨0, 0, 111, 1, 500⟩
        [⟨"FAR", some "UAL1", some 10, some 0, some 10000, false⟩,
         ⟨"NEAR", some "UAL2", some 1, some 0, some 10000, false⟩]).Perm
      (((([⟨"FAR", some "UAL1", some 10, some 0, some 10000, false⟩,
          ⟨"NEAR", some "UAL2", some 1, some 0, some 10000, false⟩] :
            List StateVec).filter
        (fun sv => validState ⟨0, 0, 111, 1, 500⟩ sv)).take 1).map
          (fun sv => mkRec ⟨0, 0, 111, 1, 500⟩ sv))) ∧
    (processStates ⟨0, 0, 111, 1, 500⟩
        [⟨"FAR", some "UAL1", some 10, some 0, some 10000, false⟩,
         ⟨"NEAR", some "UAL2", some 1, some 0, some 10000, false⟩]).length ≤ 1 ∧
    (processStates ⟨0, 0, 111, 1, 500⟩
        [⟨"FAR", some "UAL1", some 10, some 0, some 10000, false⟩,
         ⟨"NEAR", some "UAL2", some 1, some 0, some 10000, false⟩]).Sorted recLe ∧
    (∀ r ∈ processStates ⟨0, 0, 111, 1, 500⟩
        [⟨"FAR", some "UAL1", some 10, some 0, some 10000, false⟩,
         ⟨"NEAR", some "UAL2", some 1, some 0, some 10000, false⟩],
      ∃ sv ∈ ([⟨"FAR", some "UAL1", some 10, some 0, some 10000, false⟩,
          ⟨"NEAR", some "UAL2", some 1, some 0, some 10000, false⟩] :
            List StateVec),
        validState ⟨0, 0, 111, 1, 500⟩ sv = true ∧
          r = mkRec ⟨0, 0, 111, 1, 500⟩ sv) :=
  ⟨by decide,
   publish_list_amended ⟨0, 0, 111, 1, 500⟩
     [⟨"FAR", some "UAL1", some 10, some 0, some 10000, false⟩,
      ⟨"NEAR", some "UAL2", some 1, some 0, some 10000, false⟩] (by decide)⟩

/-! ## Helper lemmas: fallback cache behaviour -/

theorem fallbackLookup_hit (s : FbState) (h : String) (v : Option FbRec)
    (now : ℤ) (resp : HexdbResp) (hc : s.cache h = some v) :
    fallbackLookup s h now resp = (v, s, false) := by
  unfold fallbackLookup
  rw [hc]

theorem fallbackLookup_preserves (s : FbState) (i : String) (now : ℤ)
    (resp : HexdbResp) (h : String) (v : Option FbRec)
    (hc : s.cache h = some v) :
    (fallbackLookup s i now resp).2.1.cache h = some v := by
  unfold fallbackLookup
  cases hci : s.cache i with
  | some c => simpa using hc
  | none =>
    by_cases hrl : now - s.lastRequest < fallbackRateLimit
    · simp [hrl, hc]
    · have hne : h ≠ i := by
        intro he
        rw [he, hci] at hc
        cases hc
      cases resp with
      | ok d =>
        by_cases h4 : d.statusIs404OrError <;>
          simp [hrl, h4, cacheWrite, hne, hc]
      | notFound => simp [hrl, cacheWrite, hne, hc]
      | otherStatus c => simp [hrl, hc]
      | netError => simp [hrl, hc]

theorem runFallback_preserves (s : FbState)
    (calls : List (String × ℤ × HexdbResp)) (h : String) (v : Option FbRec)
    (hc : s.cache h = some v) :
    (runFallback s calls).2.cache h = some v := by
  induction calls generalizing s with
  | nil => simpa [runFallback] using hc
  | cons c rest ih =>
    obtain ⟨i, t, r⟩ := c
    simp only [runFallback]
    exact ih _ (fallbackLookup_preserves s i t r h v hc)

/-- C6: once the persistent fallback cache holds an entry for a hex code
(whether a positive record or the explicit not-found marker), every later
lookup for that hex code — after any interleaving of other lookups — returns
exactly the cached answer, changes nothing, and issues no network request;
in particular repeated lookups return identical results. -/
theorem fallback_cache_idempotent (s : FbState) (h : String) (v : Option FbRec)
    (hc : s.cache h = some v) :
    (∀ (now : ℤ) (resp : HexdbResp),
      fallbackLookup s h now resp = (v, s, false)) ∧
    (∀ calls : List (String × ℤ × HexdbResp),
      (runFallback s calls).2.cache h = some v ∧
      ∀ (now : ℤ) (resp : HexdbResp),
        fallbackLookup (runFallback s calls).2 h now resp =
          (v, (runFallback s calls).2, false)) := by
  refine ⟨fun now resp => fallbackLookup_hit s h v now resp hc, fun calls => ?_⟩
  have hpost := runFallback_preserves s calls h v hc
  exact ⟨hpost, fun now resp => fallbackLookup_hit _ h v now resp hpost⟩

/-- Witness for C6 at a concrete input: a cache holding a positive record for
hex "abc123", exercised with one unrelated intervening lookup. -/
theorem fallback_cache_idempotent_witness :
    ((fun x => if x = "abc123" then
        some (some ⟨some "Boeing 737-800", "B738", some "N12345",
          some "UNITED AIRLINES", "hexdb.io"⟩)
      else none) : String → Option (Option FbRec)) "abc123" =
      some (some ⟨some "Boeing 737-800", "B738", some "N12345",
        some "UNITED AIRLINES", "hexdb.io"⟩) ∧
    ((∀ (now : ℤ) (resp : HexdbResp),
      fallbackLookup
          ⟨fun x => if x = "abc123" then
            some (some ⟨some "Boeing 737-800", "B738", some "N12345",
              some "UNITED AIRLINES", "hexdb.io"⟩)
          else none, 0⟩ "abc123" now resp =
        (some ⟨some "Boeing 737-800", "B738", some "N12345",
          some "UNITED AIRLINES", "hexdb.io"⟩,
         ⟨fun x => if x = "abc123" then
            some (some ⟨some "Boeing 737-800", "B738", some "N12345",
              some "UNITED AIRLINES", "hexdb.io"⟩)
          else none, 0⟩, false)) ∧
    (∀ calls : List (String × ℤ × HexdbResp),
      (runFallback
          ⟨fun x => if x = "abc123" then
            some (some ⟨some "Boeing 737-800", "B738", some "N12345",
              some "UNITED AIRLINES", "hexdb.io"⟩)
          else none, 0⟩ calls).2.cache "abc123" =
        some (some ⟨some "Boeing 737-800", "B738", some "N12345",
          some "UNITED AIRLINES", "hexdb.io"⟩) ∧
      ∀ (now : ℤ) (resp : HexdbResp),
        fallbackLookup (runFallback
            ⟨fun x => if x = "abc123" then
              some (some ⟨some "Boeing 737-800", "B738", some "N12345",
                some "UNITED AIRLINES", "hexdb.io"⟩)
            else none, 0⟩ calls).2 "abc123" now resp =
          (some ⟨some "Boeing 737-800", "B738", some "N12345",
            some "UNITED AIRLINES", "hexdb.io"⟩,
           (runFallback
              ⟨fun x => if x = "abc123" then
                some (some ⟨some "Boeing 737-800", "B738", some "N12345",
                  some "UNITED AIRLINES", "hexdb.io"⟩)
              else none, 0⟩ calls).2, false))) :=
  ⟨by decide,
   fallback_cache_idempotent
     ⟨fun x => if x = "abc123" then
        some (some ⟨some "Boeing 737-800", "B738", some "N12345",
          some "UNITED AIRLINES", "hexdb.io"⟩)
      else none, 0⟩ "abc123"
     (some ⟨some "Boeing 737-800", "B738", some "N12345",
       some "UNITED AIRLINES", "hexdb.io"⟩) (by decide)⟩

/-- C7: a fallback network call that raises (timeout, connection error) or
returns a status other than 200 or 404 leaves the persistent cache unchanged
(so the hex code may be retried later), while a confirmed not-found response
(HTTP 404, or a 200 body carrying a 404/error indicator) writes the negative
marker into the cache. -/
theorem fallback_error_not_cached (s : FbState) (icao24 : String) (now : ℤ)
    (code : Nat) (d : HexdbData)
    (hmiss : s.cache icao24 = none)
    (hrate : ¬ (now - s.lastRequest < fallbackRateLimit)) :
    ((fallbackLookup s icao24 now .netError).2.1.cache = s.cache ∧
      (fallbackLookup s icao24 now .netError).1 = none) ∧
    ((fallbackLookup s icao24 now (.otherStatus code)).2.1.cache = s.cache ∧
      (fallbackLookup s icao24 now (.otherStatus code)).1 = none) ∧
    (fallbackLookup s icao24 now .notFound).2.1.cache icao24 = some none ∧
    (d.statusIs404OrError = true →
      (fallbackLookup s icao24 now (.ok d)).2.1.cache icao24 = some none) := by
  have h1 : fallbackLookup s icao24 now .netError =
      (none, ⟨s.cache, now⟩, true) := by
    unfold fallbackLookup
    rw [hmiss, if_neg hrate]
  have h2 : fallbackLookup s icao24 now (.otherStatus code) =
      (none, ⟨s.cache, now⟩, true) := by
    unfold fallbackLookup
    rw [hmiss, if_neg hrate]
  have h3 : fallbackLookup s icao24 now .notFound =
      (none, ⟨cacheWrite s.cache icao24 none, now⟩, true) := by
    unfold fallbackLookup
    rw [hmiss, if_neg hrate]
  have h4 : d.statusIs404OrError = true →
      fallbackLookup s icao24 now (.ok d) =
        (none, ⟨cacheWrite s.cache icao24 none, now⟩, true) := by
    intro hh
    unfold fallbackLookup
    rw [hmiss, if_neg hrate]
    simp [hh]
  refine ⟨⟨by rw [h1], by rw [h1]⟩, ⟨by rw [h2], by rw [h2]⟩, ?_, ?_⟩
  · rw [h3]
    simp [cacheWrite]
  · intro hh
    rw [h4 hh]
    simp [cacheWrite]

/-- Witness for C7 at a concrete input: empty cache, lookup of "abc" at time
5 (outside the rate limit window). -/
theorem fallback_error_not_cached_witness :
    (((fun _ => none) : String → Option (Option FbRec)) "abc" = none ∧
      ¬ ((5:ℤ) - 0 < fallbackRateLimit)) ∧
    (((fallbackLookup ⟨fun _ => none, 0⟩ "abc" 5 .netError).2.1.cache =
        (fun _ => none) ∧
      (fallbackLookup ⟨fun _ => none, 0⟩ "abc" 5 .netError).1 = none) ∧
    ((fallbackLookup ⟨fun _ => none, 0⟩ "abc" 5 (.otherStatus 500)).2.1.cache =
        (fun _ => none) ∧
      (fallbackLookup ⟨fun _ => none, 0⟩ "abc" 5 (.otherStatus 500)).1 = none) ∧
    (fallbackLookup ⟨fun _ => none, 0⟩ "abc" 5 .notFound).2.1.cache "abc" =
      some none ∧
    ((⟨true, "", "", "", none, none⟩ : HexdbData).statusIs404OrError = true →
      (fallbackLookup ⟨fun _ => none, 0⟩ "abc" 5
        (.ok ⟨true, "", "", "", none, none⟩)).2.1.cache "abc" = some none)) :=
  ⟨⟨rfl, by decide⟩,
   fallback_error_not_cached ⟨fun _ => none, 0⟩ "abc" 5 500
     ⟨true, "", "", "", none, none⟩ rfl (by decide)⟩

/-! ## Helper lemmas: FAA classification and lookup -/

theorem isCargoCarrier_mem (registrant : String) :
    isCargoCarrier registrant = "" ∨
    isCargoCarrier registrant ∈ ["UPS", "FDX", "AMAZON", "DHL", "CARGO"] := by
  unfold isCargoCarrier
  split_ifs <;> simp

/-- C8: if the FAA registry data classifies an aircraft as JET or TWIN (for
example type aircraft code "5" with a turbine engine code yields JET) and the
registrant name carries a cargo-carrier substring, the final stored type is
the named carrier code (FDX for a name containing "FEDERAL EXPRESS", barring
the UPS branch that is checked first) and never JET or TWIN; a registrant
name with no cargo substring leaves the JET/TWIN classification unchanged. -/
theorem cargo_override (typeAircraft typeEngine registrant : String)
    (hjt : classifyType typeAircraft typeEngine = "JET" ∨
      classifyType typeAircraft typeEngine = "TWIN") :
    (∀ te : String, ENGINE_TURBINE_CODES.contains te = true →
      classifyType "5" te = "JET") ∧
    (strContainsSub registrant "FEDERAL EXPRESS" = true →
      strContainsSub registrant "UNITED PARCEL" = false →
      strContainsSub registrant "UPS" = false →
      masterFinalType typeAircraft typeEngine registrant = "FDX") ∧
    (isCargoCarrier registrant ≠ "" →
      masterFinalType typeAircraft typeEngine registrant =
        isCargoCarrier registrant ∧
      masterFinalType typeAircraft typeEngine registrant ≠ "JET" ∧
      masterFinalType typeAircraft typeEngine registrant ≠ "TWIN") ∧
    (isCargoCarrier registrant = "" →
      masterFinalType typeAircraft typeEngine registrant =
        classifyType typeAircraft typeEngine) := by
  refine ⟨?_, ?_, ?_, ?_⟩
  · intro te hte
    unfold classifyType
    rw [if_neg (by decide), if_neg (by decide), if_neg (by decide),
      if_pos rfl, if_pos hte]
  · intro hfe hup1 hup2
    have hreg : ¬ registrant = "" := by
      intro hr
      rw [hr] at hfe
      exact absurd hfe (by decide)
    have hc : isCargoCarrier registrant = "FDX" := by
      unfold isCargoCarrier
      rw [if_neg hreg, if_neg (by simp [hup1, hup2]), if_pos (by simp [hfe])]
    unfold masterFinalType
    simp only [hc]
    rw [if_pos ⟨by simp, hjt⟩]
  · intro hne
    rcases isCargoCarrier_mem registrant with h0 | hmem
    · exact absurd h0 hne
    · unfold masterFinalType
      rw [if_pos ⟨hne, hjt⟩]
      refine ⟨rfl, ?_, ?_⟩ <;>
        · simp only [List.mem_cons] at hmem
          rcases hmem with h | h | h | h | h | h
          · simp [h]
          · simp [h]
          · simp [h]
          · simp [h]
          · simp [h]
          · simp at h
  · intro h0
    unfold masterFinalType
    rw [if_neg (by simp [h0])]

/-- Witness for C8 at a concrete input: type aircraft "5" with turbo-fan
engine code "5" (classified JET) registered to
"FEDERAL EXPRESS CORPORATION". -/
theorem cargo_override_witness :
    (classifyType "5" "5" = "JET" ∨ classifyType "5" "5" = "TWIN") ∧
    ((∀ te : String, ENGINE_TURBINE_CODES.contains te = true →
      classifyType "5" te = "JET") ∧
    (strContainsSub "FEDERAL EXPRESS CORPORATION" "FEDERAL EXPRESS" = true →
      strContainsSub "FEDERAL EXPRESS CORPORATION" "UNITED PARCEL" = false →
      strContainsSub "FEDERAL EXPRESS CORPORATION" "UPS" = false →
      masterFinalType "5" "5" "FEDERAL EXPRESS CORPORATION" = "FDX") ∧
    (isCargoCarrier "FEDERAL EXPRESS CORPORATION" ≠ "" →
      masterFinalType "5" "5" "FEDERAL EXPRESS CORPORATION" =
        isCargoCarrier "FEDERAL EXPRESS CORPORATION" ∧
      masterFinalType "5" "5" "FEDERAL EXPRESS CORPORATION" ≠ "JET" ∧
      masterFinalType "5" "5" "FEDERAL EXPRESS CORPORATION" ≠ "TWIN") ∧
    (isCargoCarrier "FEDERAL EXPRESS CORPORATION" = "" →
      masterFinalType "5" "5" "FEDERAL EXPRESS CORPORATION" =
        classifyType "5" "5")) :=
  ⟨Or.inl (by decide),
   cargo_override "5" "5" "FEDERAL EXPRESS CORPORATION" (Or.inl (by decide))⟩

theorem alookup_mem (l : List (String × Nat)) (k : String) (a : Nat)
    (h : alookup l k = some a) : ∃ p ∈ l, p.2 = a := by
  unfold alookup at h
  cases hf : l.find? (fun p => p.1 == k) with
  | none => rw [hf] at h; cases h
  | some pr =>
    rw [hf] at h
    exact ⟨pr, List.mem_of_find?_eq_some hf, by simpa using h⟩

theorem faaFindIcao_mem (db : FAADb) (i : Option String) (a : Nat)
    (h : faaFindIcao db i = some a) : ∃ p ∈ db.byIcao24, p.2 = a := by
  cases i with
  | none => simp [faaFindIcao] at h
  | some ic =>
    rw [faaFindIcao] at h
    by_cases hie : ic = ""
    · rw [if_pos hie] at h
      cases h
    · rw [if_neg hie] at h
      exact alookup_mem _ _ _ h

theorem faaFindCallsign_mem (db : FAADb) (c : Option String) (a : Nat)
    (h : faaFindCallsign db c = some a) : ∃ p ∈ db.byNnumber, p.2 = a := by
  cases c with
  | none => simp [faaFindCallsign] at h
  | some cs =>
    rw [faaFindCallsign] at h
    by_cases hce : cs = ""
    · rw [if_pos hce] at h
      cases h
    · rw [if_neg hce] at h
      simp only at h
      by_cases hn : pyStartsWith (pyStrip (pyUpper cs)) "N"
      · rw [if_pos hn] at h
        exact alookup_mem _ _ _ h
      · rw [if_neg hn] at h
        cases h

theorem faaFind_mem (db : FAADb) (i c : Option String) (a : Nat)
    (h : faaFind db i c = some a) :
    (∃ p ∈ db.byIcao24, p.2 = a) ∨ ∃ p ∈ db.byNnumber, p.2 = a := by
  unfold faaFind at h
  by_cases hl : db.loaded = false
  · rw [if_pos hl] at h
    cases h
  · rw [if_neg hl] at h
    cases hhit : faaFindIcao db i with
    | none =>
      rw [hhit] at h
      exact Or.inr (faaFindCallsign_mem db c a h)
    | some a0 =>
      rw [hhit] at h
      obtain rfl : a0 = a := by simpa using h
      exact Or.inl (faaFindIcao_mem db i _ hhit)

/-- C9: FAADatabase.lookup copies the stored record into a fresh object: the
returned address is distinct from every address held by the by_icao24 and
by_nnumber tables, the lookup itself modifies no existing heap cell, and
overwriting the returned object changes the result of no later lookup for
the same or any other key. -/
theorem faa_lookup_fresh_copy (db : FAADb) (h : Heap) (i c : Option String)
    (a : Nat)
    (hwf1 : ∀ p ∈ db.byIcao24, p.2 < h.length)
    (hwf2 : ∀ p ∈ db.byNnumber, p.2 < h.length)
    (hfind : faaFind db i c = some a) :
    faaLookup db h i c = (some h.length, h ++ [h.getD a []]) ∧
    (∀ p ∈ db.byIcao24, p.2 ≠ h.length) ∧
    (∀ p ∈ db.byNnumber, p.2 ≠ h.length) ∧
    (∀ b, b < h.length → (h ++ [h.getD a []]).getD b [] = h.getD b []) ∧
    (∀ (d : PyDict) (i2 c2 : Option String),
      lookupContents db ((h ++ [h.getD a []]).set h.length d) i2 c2 =
        lookupContents db h i2 c2) := by
  refine ⟨?_, ?_, ?_, ?_, ?_⟩
  · unfold faaLookup
    rw [hfind]
  · intro p hp
    exact Nat.ne_of_lt (hwf1 p hp)
  · intro p hp
    exact Nat.ne_of_lt (hwf2 p hp)
  · intro b hb
    simp only [List.getD_eq_getElem?_getD]
    rw [List.getElem?_append_left hb]
  · intro d i2 c2
    unfold lookupContents
    cases hf2 : faaFind db i2 c2 with
    | none => rfl
    | some a2 =>
      have ha2 : a2 < h.length := by
        rcases faaFind_mem db i2 c2 a2 hf2 with ⟨p, hp, hpa⟩ | ⟨p, hp, hpa⟩
        · rw [← hpa]
          exact hwf1 p hp
        · rw [← hpa]
          exact hwf2 p hp
      simp only [Option.map_some']
      congr 1
      simp only [List.getD_eq_getElem?_getD]
      rw [List.getElem?_set_ne (by omega), List.getElem?_append_left ha2]

/-- Witness for C9 at a concrete input: a loaded database whose ICAO24 table
maps "A1B" to heap cell 0, looked up as "00a1b". -/
theorem faa_lookup_fresh_copy_witness :
    ((∀ p ∈ ([("A1B", 0)] : List (String × Nat)), p.2 < 1) ∧
      (∀ p ∈ ([] : List (String × Nat)), p.2 < 1) ∧
      faaFind ⟨true, [("A1B", 0)], []⟩ (some "00a1b") none = some 0) ∧
    (faaLookup ⟨true, [("A1B", 0)], []⟩ [[("type", "JET")]] (some "00a1b") none =
      (some 1, [[("type", "JET")], [("type", "JET")]]) ∧
    (∀ p ∈ ([("A1B", 0)] : List (String × Nat)), p.2 ≠ 1) ∧
    (∀ p ∈ ([] : List (String × Nat)), p.2 ≠ 1) ∧
    (∀ b, b < 1 →
      ([[("type", "JET")], [("type", "JET")]] : Heap).getD b [] =
        ([[("type", "JET")]] : Heap).getD b []) ∧
    (∀ (d : PyDict) (i2 c2 : Option String),
      lookupContents ⟨true, [("A1B", 0)], []⟩
          (([[("type", "JET")], [("type", "JET")]] : Heap).set 1 d) i2 c2 =
        lookupContents ⟨true, [("A1B", 0)], []⟩ [[("type", "JET")]] i2 c2)) := by
  have hwf1 : ∀ p ∈ ([("A1B", 0)] : List (String × Nat)), p.2 < 1 := by decide
  have hwf2 : ∀ p ∈ ([] : List (String × Nat)), p.2 < 1 := by decide
  have hfind : faaFind ⟨true, [("A1B", 0)], []⟩ (some "00a1b") none = some 0 := by
    decide
  have hmain := faa_lookup_fresh_copy ⟨true, [("A1B", 0)], []⟩
    [[("type", "JET")]] (some "00a1b") none 0 hwf1 hwf2 hfind
  exact ⟨⟨hwf1, hwf2, hfind⟩, hmain⟩

/-- C10: the heuristic type inference of flight_manager.py is total over its
public inputs — for every callsign (including a missing or empty one) and
every optional altitude and speed, it returns a member of the closed set
MIL, HELO, JET, GA, UNK. -/
theorem infer_type_closed_set (callsign : Option String)
    (altitudeFt speedKnots : Option Int) :
    inferAircraftType callsign altitudeFt speedKnots ∈
      (["MIL", "HELO", "JET", "GA", "UNK"] : List String) := by
  unfold inferAircraftType
  dsimp only
  split_ifs <;> simp

end LEDMatrix
